import Mathlib

/-!
Shallow embedding of libblastrampoline's autodetection core
(`src/autodetection.c`) and of the exported-function table generator
(`src/libblastrampoline_trampdata.h`).

Modelling conventions:
* 64-bit machine integers are represented by their bit patterns as `Nat`
  values (the source compares `int64_t` slots against unsigned 64-bit
  constants, which in C is a raw bit-pattern comparison after the usual
  arithmetic conversions).
* Single/double precision floating-point data is only ever passed through
  to the opaque foreign routine or compared for exact equality against
  exactly representable constants (0.25, 0.5, 1.0, 2.0), so it is
  represented by exact rational values in `ℚ`.
* A loaded library is a `Library` value: a symbol table
  (`lookup_symbol : String → Option Nat`, addresses as `Nat`) together
  with the observable behaviour of the code found at each address when
  invoked as `isamax`, `dpotrf` or `sdot` (the two `sdot` fields are the
  observed values of the same address invoked under the float-return and
  the double-return calling convention, as the source does).
* Foreign invocations and the `lsame_` push/pop substitution are made
  observable through an event trace: each detection function returns its
  `int32_t` result paired with the ordered list of effects it performed.
* The `LBT_DEEPBINDLESS` build-time toggle is an explicit `Bool`
  parameter, so both build variants are covered.
-/

/-- Interface-width result constants. The header defining them is not part
of the given sources; the values 32, 64 and 0 are taken from the source
comment above `autodetect_interface` ("Returns the values 32, 64 or 0,
denoting the bitwidth of the internal index representation"). -/
def LBT_INTERFACE_LP64 : Int := 32

/-- The 64-bit interface-width constant (see `LBT_INTERFACE_LP64`). -/
def LBT_INTERFACE_ILP64 : Int := 64

/-- The unknown interface-width constant (see `LBT_INTERFACE_LP64`). -/
def LBT_INTERFACE_UNKNOWN : Int := 0

/-- Modelled from the spec: the calling-convention constants come from the
public header, which is not among the given sources; the spec names the
three conventions Plain, LegacyF2C and Unknown. Only their distinctness
matters below; Unknown is 0, matching the error convention of
`LBT_INTERFACE_UNKNOWN`. -/
def LBT_F2C_PLAIN : Int := 1

/-- The legacy f2c calling-convention constant (see `LBT_F2C_PLAIN`). -/
def LBT_F2C_REQUIRED : Int := 2

/-- The unknown calling-convention constant (see `LBT_F2C_PLAIN`). -/
def LBT_F2C_UNKNOWN : Int := 0

/-- Observable effects of the detection sequence: foreign invocations with
the exact arguments the C code passes (by value of what the pointers point
at), and the transient `lsame_` substitution of deepbindless builds. -/
inductive FEvent where
  | push_fake_lsame : FEvent
  | pop_fake_lsame : FEvent
  | call_isamax (n : Nat) (X : List ℚ) (incx : Nat) : FEvent
  | call_dpotrf (uplo : Char) (m : Nat) (testmat : Fin 4 → ℚ)
      (lda : Nat) (info : Nat) : FEvent
  | call_sdot_plain (n : Nat) (A : List ℚ) (inca : Nat)
      (B : List ℚ) (incb : Nat) : FEvent
  | call_sdot_f2c (n : Nat) (A : List ℚ) (inca : Nat)
      (B : List ℚ) (incb : Nat) : FEvent

/-- A loaded library: its dynamic symbol table and the observable
behaviour of the routine living at any given address, under each of the
function-pointer types the probes cast to. -/
structure Library where
  lookup_symbol : String → Option Nat
  isamax_at : Nat → Nat → List ℚ → Nat → Nat
  dpotrf_at : Nat → Char → Nat → (Fin 4 → ℚ) → Nat → Nat → Nat
  sdot_plain_at : Nat → Nat → List ℚ → Nat → List ℚ → Nat → ℚ
  sdot_f2c_at : Nat → Nat → List ℚ → Nat → List ℚ → Nat → ℚ

/-- The two probe stems of `autodetect_symbol_suffix`, in source order:
the fortran BLAS symbol, then the fortran LAPACK symbol. -/
def symbol_names : List String := ["isamax_", "dpotrf_"]

/-- The candidate suffixes of `autodetect_symbol_suffix`, in source order:
the LP64-mangling suffixes, then the ILP64-mangling ones. -/
def suffixes : List String := ["", "_", "__", "64_", "_64__", "__64___"]

/-- The inner loop of `autodetect_symbol_suffix`: scan the remaining
candidate suffixes for one stem, returning the first suffix whose
concatenation with the stem resolves. -/
def suffix_scan (lookup : String → Option Nat) (stem : String) :
    List String → Option String
  | [] => none
  | suf :: rest =>
    if (lookup (stem ++ suf)).isSome then some suf
    else suffix_scan lookup stem rest

/-- The outer loop of `autodetect_symbol_suffix`: scan the remaining
stems, trying all candidate suffixes for each. -/
def stem_scan (lookup : String → Option Nat) : List String → Option String
  | [] => none
  | stem :: rest =>
    match suffix_scan lookup stem suffixes with
    | some suf => some suf
    | none => stem_scan lookup rest

/-- Embedding of `autodetect_symbol_suffix` (autodetection.c, lines 8-33):
nested loops over `symbol_names` and `suffixes`, returning the suffix of
the first resolving concatenation, and `none` (NULL) on total failure. -/
def autodetect_symbol_suffix (lookup : String → Option Nat) :
    Option String :=
  stem_scan lookup symbol_names

/-- Embedding of `autodetect_blas_interface` (autodetection.c, lines
39-67), parameterised by the `LBT_DEEPBINDLESS` build toggle and by the
behaviour of the routine at the resolved `isamax` address. Returns the
`int32_t` result paired with the trace of effects in program order. The
length argument is the `int64_t` bit pattern 0xffffffff00000003, the
array is {1.0f, 2.0f, 1.0f} and the stride is 1, as in the source. -/
def autodetect_blas_interface (deepbindless : Bool)
    (isamax : Nat → List ℚ → Nat → Nat) : Int × List FEvent :=
  let n : Nat := 0xffffffff00000003
  let X : List ℚ := [1, 2, 1]
  let incx : Nat := 1
  let pre : List FEvent := if deepbindless then [FEvent.push_fake_lsame] else []
  let max_idx : Nat := isamax n X incx
  let post : List FEvent := if deepbindless then [FEvent.pop_fake_lsame] else []
  let events : List FEvent := pre ++ [FEvent.call_isamax n X incx] ++ post
  if max_idx = 0 then (LBT_INTERFACE_ILP64, events)
  else if max_idx = 2 then (LBT_INTERFACE_LP64, events)
  else (LBT_INTERFACE_UNKNOWN, events)

/-- Embedding of `autodetect_lapack_interface` (autodetection.c, lines
74-97), parameterised by the behaviour of the routine at the resolved
`dpotrf` address and by the indeterminate initial contents of the
uninitialised `double testmat[4]` local. The call passes uplo 'U',
order 2, lda 0 and an `int64_t` info slot initialised to 0; the stored
info bit pattern is then compared against the unsigned 64-bit constants
of the source. -/
def autodetect_lapack_interface
    (dpotrf : Char → Nat → (Fin 4 → ℚ) → Nat → Nat → Nat)
    (testmat : Fin 4 → ℚ) : Int × List FEvent :=
  let uplo : Char := 'U'
  let m : Nat := 2
  let lda : Nat := 0
  let info0 : Nat := 0
  let info : Nat := dpotrf uplo m testmat lda info0
  let events : List FEvent := [FEvent.call_dpotrf uplo m testmat lda info0]
  if info = 0xfffffffffffffffc then (LBT_INTERFACE_ILP64, events)
  else if info = 0x00000000fffffffc then (LBT_INTERFACE_LP64, events)
  else (LBT_INTERFACE_UNKNOWN, events)

/-- Embedding of `autodetect_interface` (autodetection.c, lines 103-122):
resolve `isamax_` + suffix and run the BLAS sub-test on it; only if that
symbol is absent, resolve `dpotrf_` + suffix and run the LAPACK sub-test;
if neither resolves, return `LBT_INTERFACE_UNKNOWN` having performed no
foreign call. -/
def autodetect_interface (lib : Library) (deepbindless : Bool)
    (testmat : Fin 4 → ℚ) (suffix : String) : Int × List FEvent :=
  match lib.lookup_symbol ("isamax_" ++ suffix) with
  | some a => autodetect_blas_interface deepbindless (lib.isamax_at a)
  | none =>
    match lib.lookup_symbol ("dpotrf_" ++ suffix) with
    | some a => autodetect_lapack_interface (lib.dpotrf_at a) testmat
    | none => (LBT_INTERFACE_UNKNOWN, [])

/-- Embedding of `autodetect_f2c` (autodetection.c, lines 125-158,
F2C_AUTODETECTION builds): resolve `sdot_` + suffix, returning the
literal integer 0 with no foreign call when it is absent; otherwise call
the routine under the float-return convention and under the double-return
convention with n = 1, A = B = {0.5f} and both strides 1, and classify:
the float-convention value equal to 0.25 gives `LBT_F2C_PLAIN`; otherwise
the double-convention value (stored into a `float` local) equal to 0.25
gives `LBT_F2C_REQUIRED`; otherwise `LBT_F2C_UNKNOWN`. -/
def autodetect_f2c (lib : Library) (suffix : String) : Int × List FEvent :=
  match lib.lookup_symbol ("sdot_" ++ suffix) with
  | none => (0, [])
  | some a =>
    let A : List ℚ := [1/2]
    let B : List ℚ := [1/2]
    let n : Nat := 1
    let inca : Nat := 1
    let incb : Nat := 1
    let plain : ℚ := lib.sdot_plain_at a n A inca B incb
    let f2c : ℚ := lib.sdot_f2c_at a n A inca B incb
    let events : List FEvent :=
      [FEvent.call_sdot_plain n A inca B incb,
       FEvent.call_sdot_f2c n A inca B incb]
    if plain = 1/4 then (LBT_F2C_PLAIN, events)
    else if f2c = 1/4 then (LBT_F2C_REQUIRED, events)
    else (LBT_F2C_UNKNOWN, events)

/-- Identity of an address slot generated by
`libblastrampoline_trampdata.h`: for a registry name `name`, the 32-bit
slot is the variable `name_addr` and the 64-bit slot is the variable
`name64__addr`; distinct variables have distinct addresses, modelled by
constructor injectivity. -/
inductive AddrSlot where
  | addr32 (name : String) : AddrSlot
  | addr64 (name : String) : AddrSlot
  deriving DecidableEq, Repr

/-- Embedding of the `exported_func_names` array of
`libblastrampoline_trampdata.h` (lines 16-21), parameterised by the
build-time registry `EXPORTED_FUNCS` (the `exported_funcs.inc` include is
not among the given sources): one string per registry entry, in registry
order, followed by a NULL sentinel (`none`). -/
def exported_func_names (reg : List String) : List (Option String) :=
  reg.map some ++ [none]

/-- Embedding of the `exported_func32_addrs` array (lines 24-29): the
address of each registry entry's 32-bit slot, in registry order, followed
by a NULL sentinel. -/
def exported_func32_addrs (reg : List String) : List (Option AddrSlot) :=
  reg.map (fun name => some (AddrSlot.addr32 name)) ++ [none]

/-- Embedding of the `exported_func64_addrs` array (lines 25-33): the
address of each registry entry's 64-bit slot, in registry order, followed
by a NULL sentinel. -/
def exported_func64_addrs (reg : List String) : List (Option AddrSlot) :=
  reg.map (fun name => some (AddrSlot.addr64 name)) ++ [none]

/-- Modelled from the spec wording of the probe iteration: the twelve
(stem, suffix) combinations in the iteration order of
`autodetect_symbol_suffix` (each BLAS-stem combination before every
LAPACK-stem one, suffixes in candidate order within a stem); used to
compare the nested-loop source against a first-match specification. -/
def probe_pairs : List (String × String) :=
  [("isamax_", ""), ("isamax_", "_"), ("isamax_", "__"),
   ("isamax_", "64_"), ("isamax_", "_64__"), ("isamax_", "__64___"),
   ("dpotrf_", ""), ("dpotrf_", "_"), ("dpotrf_", "__"),
   ("dpotrf_", "64_"), ("dpotrf_", "_64__"), ("dpotrf_", "__64___")]

/-- C1: `autodetect_blas_interface` invokes the probed `isamax` routine
with a length argument whose 64-bit bit pattern is 0xffffffff00000003,
the array {1.0f, 2.0f, 1.0f} and stride 1, and classifies the returned
index: 0 yields ILP64, 2 yields LP64, every other value yields UNKNOWN. -/
theorem blas_interface_classification (deepbindless : Bool)
    (isamax : Nat → List ℚ → Nat → Nat) (r : Nat)
    (h : isamax 0xffffffff00000003 [1, 2, 1] 1 = r) :
    FEvent.call_isamax 0xffffffff00000003 [1, 2, 1] 1
        ∈ (autodetect_blas_interface deepbindless isamax).2 ∧
    ((autodetect_blas_interface deepbindless isamax).1
        = LBT_INTERFACE_ILP64 ↔ r = 0) ∧
    ((autodetect_blas_interface deepbindless isamax).1
        = LBT_INTERFACE_LP64 ↔ r = 2) ∧
    ((autodetect_blas_interface deepbindless isamax).1
        = LBT_INTERFACE_UNKNOWN ↔ (r ≠ 0 ∧ r ≠ 2)) := by
  subst h
  by_cases h0 : isamax 0xffffffff00000003 [1, 2, 1] 1 = 0 <;>
    by_cases h2 : isamax 0xffffffff00000003 [1, 2, 1] 1 = 2 <;>
    cases deepbindless <;>
    simp_all [autodetect_blas_interface, LBT_INTERFACE_ILP64,
      LBT_INTERFACE_LP64, LBT_INTERFACE_UNKNOWN]

/-- Closed witness for `blas_interface_classification` at a concrete
probed routine returning 0. -/
theorem blas_interface_classification_witness :
    (autodetect_blas_interface false (fun _ _ _ => 0)).1
      = LBT_INTERFACE_ILP64 :=
  (blas_interface_classification false (fun _ _ _ => 0) 0 rfl).2.1.mpr rfl

/-- C2: `autodetect_lapack_interface` invokes the probed `dpotrf` routine
with uplo 'U', order 2, a 2x2 matrix, lda = 0 and a 64-bit info slot
initialised to 0, and classifies the stored info bit pattern:
0xfffffffffffffffc yields ILP64, 0x00000000fffffffc yields LP64, any
other pattern yields UNKNOWN. -/
theorem lapack_interface_classification
    (dpotrf : Char → Nat → (Fin 4 → ℚ) → Nat → Nat → Nat)
    (testmat : Fin 4 → ℚ) (r : Nat)
    (h : dpotrf 'U' 2 testmat 0 0 = r) :
    (autodetect_lapack_interface dpotrf testmat).2
        = [FEvent.call_dpotrf 'U' 2 testmat 0 0] ∧
    ((autodetect_lapack_interface dpotrf testmat).1
        = LBT_INTERFACE_ILP64 ↔ r = 0xfffffffffffffffc) ∧
    ((autodetect_lapack_interface dpotrf testmat).1
        = LBT_INTERFACE_LP64 ↔ r = 0x00000000fffffffc) ∧
    ((autodetect_lapack_interface dpotrf testmat).1
        = LBT_INTERFACE_UNKNOWN ↔
      (r ≠ 0xfffffffffffffffc ∧ r ≠ 0x00000000fffffffc)) := by
  subst h
  by_cases h0 : dpotrf 'U' 2 testmat 0 0 = 0xfffffffffffffffc <;>
    by_cases h2 : dpotrf 'U' 2 testmat 0 0 = 0x00000000fffffffc <;>
    simp_all [autodetect_lapack_interface, LBT_INTERFACE_ILP64,
      LBT_INTERFACE_LP64, LBT_INTERFACE_UNKNOWN]

/-- Closed witness for `lapack_interface_classification` at a concrete
probed routine storing the 64-bit pattern of -4. -/
theorem lapack_interface_classification_witness :
    (autodetect_lapack_interface (fun _ _ _ _ _ => 0xfffffffffffffffc)
      (fun _ => 0)).1 = LBT_INTERFACE_ILP64 :=
  (lapack_interface_classification (fun _ _ _ _ _ => 0xfffffffffffffffc)
    (fun _ => 0) 0xfffffffffffffffc rfl).2.1.mpr rfl

/-- C7: in deepbindless builds the `lsame_` substitution is pushed
immediately before the single `isamax` invocation and popped immediately
after it, on every control path and whatever the probe returns, and the
substitution does not affect the classification result. -/
theorem blas_interface_lsame_scope (isamax : Nat → List ℚ → Nat → Nat) :
    (autodetect_blas_interface true isamax).2 =
      [FEvent.push_fake_lsame,
       FEvent.call_isamax 0xffffffff00000003 [1, 2, 1] 1,
       FEvent.pop_fake_lsame] ∧
    (autodetect_blas_interface true isamax).1 =
      (autodetect_blas_interface false isamax).1 := by
  by_cases h0 : isamax 0xffffffff00000003 [1, 2, 1] 1 = 0 <;>
    by_cases h2 : isamax 0xffffffff00000003 [1, 2, 1] 1 = 2 <;>
    simp [autodetect_blas_interface, h0, h2]

/-- A fake loaded library exporting no symbols at all; every probed
routine behaviour is a constant stub (it is never reachable). -/
def lib_none : Library :=
  ⟨fun _ => none, fun _ _ _ _ => 0, fun _ _ _ _ _ _ => 0,
   fun _ _ _ _ _ _ => 0, fun _ _ _ _ _ _ => 0⟩

/-- A fake library exporting exactly the symbol `isamax__`. -/
def lib_blas : Library :=
  { lib_none with
    lookup_symbol := fun name => if name = "isamax__" then some 1 else none }

/-- A fake library exporting exactly the symbol `dpotrf__`. -/
def lib_lapack : Library :=
  { lib_none with
    lookup_symbol := fun name => if name = "dpotrf__" then some 2 else none }

/-- A fake library exporting exactly the symbol `sdot__`, whose routine
observes as `p` under the float-return convention and as `w` under the
double-return convention. -/
def lib_sdot (p w : ℚ) : Library :=
  { lib_none with
    lookup_symbol := fun name => if name = "sdot__" then some 3 else none,
    sdot_plain_at := fun _ _ _ _ _ _ => p,
    sdot_f2c_at := fun _ _ _ _ _ _ => w }

/-- C3: `autodetect_interface` first resolves `isamax_` + suffix and, when
it resolves, returns the BLAS sub-test on that address; only when it does
not resolve does it resolve `dpotrf_` + suffix and return the LAPACK
sub-test; when neither resolves it returns UNKNOWN with an empty foreign
trace, i.e. without invoking any foreign routine. -/
theorem interface_probe_order (lib : Library) (deepbindless : Bool)
    (testmat : Fin 4 → ℚ) (suffix : String) :
    (∀ a, lib.lookup_symbol ("isamax_" ++ suffix) = some a →
       autodetect_interface lib deepbindless testmat suffix
         = autodetect_blas_interface deepbindless (lib.isamax_at a)) ∧
    (lib.lookup_symbol ("isamax_" ++ suffix) = none →
       ∀ a, lib.lookup_symbol ("dpotrf_" ++ suffix) = some a →
         autodetect_interface lib deepbindless testmat suffix
           = autodetect_lapack_interface (lib.dpotrf_at a) testmat) ∧
    (lib.lookup_symbol ("isamax_" ++ suffix) = none →
       lib.lookup_symbol ("dpotrf_" ++ suffix) = none →
         autodetect_interface lib deepbindless testmat suffix
           = (LBT_INTERFACE_UNKNOWN, [])) := by
  refine ⟨?_, ?_, ?_⟩ <;> intros <;> simp_all [autodetect_interface]

/-- Closed witness for `interface_probe_order`, exercising all three
resolution outcomes on concrete fake libraries. -/
theorem interface_probe_order_witness :
    (autodetect_interface lib_blas false (fun _ => 0) "_"
        = autodetect_blas_interface false (lib_blas.isamax_at 1)) ∧
    (autodetect_interface lib_lapack false (fun _ => 0) "_"
        = autodetect_lapack_interface (lib_lapack.dpotrf_at 2) (fun _ => 0)) ∧
    (autodetect_interface lib_none false (fun _ => 0) "_"
        = (LBT_INTERFACE_UNKNOWN, [])) :=
  ⟨(interface_probe_order lib_blas false (fun _ => 0) "_").1 1 rfl,
   (interface_probe_order lib_lapack false (fun _ => 0) "_").2.1 rfl 2 rfl,
   (interface_probe_order lib_none false (fun _ => 0) "_").2.2 rfl rfl⟩

/-- C6: `autodetect_f2c` calls the resolved `sdot` routine with the
single-element vectors {0.5f} and {0.5f}, n = 1 and both strides 1, and
classifies the observed values: narrow (float-convention) value 0.25
gives `LBT_F2C_PLAIN`; otherwise wide (double-convention) value 0.25
gives `LBT_F2C_REQUIRED`; neither gives `LBT_F2C_UNKNOWN`. -/
theorem f2c_classification (lib : Library) (suffix : String) (a : Nat)
    (p w : ℚ)
    (ha : lib.lookup_symbol ("sdot_" ++ suffix) = some a)
    (hp : lib.sdot_plain_at a 1 [1/2] 1 [1/2] 1 = p)
    (hw : lib.sdot_f2c_at a 1 [1/2] 1 [1/2] 1 = w) :
    (autodetect_f2c lib suffix).2
        = [FEvent.call_sdot_plain 1 [1/2] 1 [1/2] 1,
           FEvent.call_sdot_f2c 1 [1/2] 1 [1/2] 1] ∧
    ((autodetect_f2c lib suffix).1 = LBT_F2C_PLAIN ↔ p = 1/4) ∧
    ((autodetect_f2c lib suffix).1 = LBT_F2C_REQUIRED
        ↔ (p ≠ 1/4 ∧ w = 1/4)) ∧
    ((autodetect_f2c lib suffix).1 = LBT_F2C_UNKNOWN
        ↔ (p ≠ 1/4 ∧ w ≠ 1/4)) := by
  subst hp hw
  by_cases h1 : lib.sdot_plain_at a 1 [1/2] 1 [1/2] 1 = 1/4 <;>
    by_cases h2 : lib.sdot_f2c_at a 1 [1/2] 1 [1/2] 1 = 1/4 <;>
    simp_all [autodetect_f2c, LBT_F2C_PLAIN, LBT_F2C_REQUIRED,
      LBT_F2C_UNKNOWN]

/-- Closed witness for `f2c_classification` at a concrete library whose
sdot observes as 0.25 under the narrow convention only. -/
theorem f2c_classification_witness :
    (autodetect_f2c (lib_sdot (1/4) 0) "_").1 = LBT_F2C_PLAIN :=
  (f2c_classification (lib_sdot (1/4) 0) "_" 3 (1/4) 0 rfl rfl rfl).2.1.mpr
    rfl

/-- C9: when `sdot_` + suffix does not resolve, `autodetect_f2c` returns
the integer 0 immediately, with an empty foreign trace, i.e. without
invoking any foreign routine. -/
theorem f2c_missing_symbol (lib : Library) (suffix : String)
    (h : lib.lookup_symbol ("sdot_" ++ suffix) = none) :
    autodetect_f2c lib suffix = (0, []) := by
  simp [autodetect_f2c, h]

/-- Closed witness for `f2c_missing_symbol` on the empty fake library. -/
theorem f2c_missing_symbol_witness :
    autodetect_f2c lib_none "" = (0, []) :=
  f2c_missing_symbol lib_none "" rfl

/-- C10: the narrow interpretation is tested before the wide one: when
both observed values equal 0.25, `autodetect_f2c` classifies as
`LBT_F2C_PLAIN`, never as `LBT_F2C_REQUIRED`. -/
theorem f2c_plain_precedence (lib : Library) (suffix : String) (a : Nat)
    (ha : lib.lookup_symbol ("sdot_" ++ suffix) = some a)
    (hp : lib.sdot_plain_at a 1 [1/2] 1 [1/2] 1 = 1/4)
    (_hw : lib.sdot_f2c_at a 1 [1/2] 1 [1/2] 1 = 1/4) :
    (autodetect_f2c lib suffix).1 = LBT_F2C_PLAIN ∧
    (autodetect_f2c lib suffix).1 ≠ LBT_F2C_REQUIRED := by
  constructor <;>
    simp_all [autodetect_f2c, LBT_F2C_PLAIN, LBT_F2C_REQUIRED]

/-- Closed witness for `f2c_plain_precedence`: a concrete library whose
sdot observes as 0.25 under both conventions. -/
theorem f2c_plain_precedence_witness :
    (autodetect_f2c (lib_sdot (1/4) (1/4)) "_").1 = LBT_F2C_PLAIN ∧
    (autodetect_f2c (lib_sdot (1/4) (1/4)) "_").1 ≠ LBT_F2C_REQUIRED :=
  f2c_plain_precedence (lib_sdot (1/4) (1/4)) "_" 3 rfl rfl rfl

/-- The inner loop returns the first suffix in the remaining candidate
list whose concatenation with the stem resolves. -/
theorem suffix_scan_eq_findSome (lookup : String → Option Nat)
    (stem : String) :
    ∀ l : List String, suffix_scan lookup stem l
      = l.findSome?
          (fun suf => if (lookup (stem ++ suf)).isSome then some suf
                      else none)
  | [] => rfl
  | suf :: rest => by
    by_cases h : (lookup (stem ++ suf)).isSome <;>
      simp [suffix_scan, List.findSome?_cons, h,
        suffix_scan_eq_findSome lookup stem rest]

/-- The outer loop returns the first stem's inner-loop hit, in stem
order. -/
theorem stem_scan_eq_findSome (lookup : String → Option Nat) :
    ∀ l : List String, stem_scan lookup l
      = l.findSome? (fun stem => suffix_scan lookup stem suffixes)
  | [] => rfl
  | stem :: rest => by
    cases h : suffix_scan lookup stem suffixes <;>
      simp [stem_scan, List.findSome?_cons, h,
        stem_scan_eq_findSome lookup rest]

/-- Scanning the (stem, suffix) pairs of one stem is the same as scanning
that stem's suffixes. -/
theorem findSome?_pair_bridge (lookup : String → Option Nat)
    (stem : String) (l : List String) :
    (l.map fun su => (stem, su)).findSome?
        (fun p => if (lookup (p.1 ++ p.2)).isSome then some p.2 else none)
      = l.findSome?
          (fun su => if (lookup (stem ++ su)).isSome then some su
                     else none) := by
  induction l with
  | nil => rfl
  | cons a t ih =>
    by_cases h : (lookup (stem ++ a)).isSome <;>
      simp [List.findSome?_cons, h, ih]

/-- C4: `autodetect_symbol_suffix` iterates the BLAS stem before the
LAPACK stem and, within each stem, the six suffixes in the fixed order
"", "_", "__", "64_", "_64__", "__64___"; it returns the suffix of the
first (stem, suffix) concatenation the resolver resolves, and returns
NULL (`none`) if and only if no combination resolves. -/
theorem autodetect_symbol_suffix_first_match (lookup : String → Option Nat) :
    autodetect_symbol_suffix lookup
        = probe_pairs.findSome?
            (fun p => if (lookup (p.1 ++ p.2)).isSome then some p.2
                      else none) ∧
    (autodetect_symbol_suffix lookup = none ↔
        ∀ p ∈ probe_pairs, lookup (p.1 ++ p.2) = none) := by
  have hp : probe_pairs
      = (suffixes.map fun su => ("isamax_", su))
          ++ (suffixes.map fun su => ("dpotrf_", su)) := by rfl
  have key : autodetect_symbol_suffix lookup
      = probe_pairs.findSome?
          (fun p => if (lookup (p.1 ++ p.2)).isSome then some p.2
                    else none) := by
    rw [autodetect_symbol_suffix, stem_scan_eq_findSome, hp,
      List.findSome?_append, findSome?_pair_bridge, findSome?_pair_bridge]
    simp only [symbol_names, List.findSome?_cons, List.findSome?_nil,
      suffix_scan_eq_findSome]
    cases suffixes.findSome?
        (fun suf => if (lookup ("isamax_" ++ suf)).isSome then some suf
                    else none) <;>
      cases suffixes.findSome?
          (fun suf => if (lookup ("dpotrf_" ++ suf)).isSome then some suf
                      else none) <;>
      simp [Option.or]
  refine ⟨key, ?_⟩
  rw [key, List.findSome?_eq_none_iff]
  refine forall_congr' fun p => forall_congr' fun _ => ?_
  by_cases h : (lookup (p.1 ++ p.2)).isSome
  · simp [h, Option.isSome_iff_ne_none.mp h]
  · simp [h, Option.not_isSome_iff_eq_none.mp h]

/-- C5: for every suffix s in the candidate set, if the resolver resolves
the isamax stem decorated with s and no other probed (stem, suffix)
concatenation, then `autodetect_symbol_suffix` returns exactly s. -/
theorem suffix_roundtrip (s : String) (hs : s ∈ suffixes)
    (lookup : String → Option Nat)
    (hres : (lookup ("isamax_" ++ s)).isSome = true)
    (honly : ∀ p ∈ probe_pairs,
      p.1 ++ p.2 ≠ "isamax_" ++ s → lookup (p.1 ++ p.2) = none) :
    autodetect_symbol_suffix lookup = some s := by
  simp only [suffixes, List.mem_cons, List.not_mem_nil, or_false] at hs
  rcases hs with rfl | rfl | rfl | rfl | rfl | rfl
  · have g0 : (lookup "isamax_").isSome = true := by simpa using hres
    simp [autodetect_symbol_suffix, stem_scan, suffix_scan, suffixes,
      symbol_names, g0]
  · have e0 : lookup "isamax_" = none := by
      simpa using honly ("isamax_", "") (by decide) (by decide)
    have g1 : (lookup "isamax__").isSome = true := by simpa using hres
    simp [autodetect_symbol_suffix, stem_scan, suffix_scan, suffixes,
      symbol_names, e0, g1]
  · have e0 : lookup "isamax_" = none := by
      simpa using honly ("isamax_", "") (by decide) (by decide)
    have e1 : lookup "isamax__" = none := by
      simpa using honly ("isamax_", "_") (by decide) (by decide)
    have g2 : (lookup "isamax___").isSome = true := by simpa using hres
    simp [autodetect_symbol_suffix, stem_scan, suffix_scan, suffixes,
      symbol_names, e0, e1, g2]
  · have e0 : lookup "isamax_" = none := by
      simpa using honly ("isamax_", "") (by decide) (by decide)
    have e1 : lookup "isamax__" = none := by
      simpa using honly ("isamax_", "_") (by decide) (by decide)
    have e2 : lookup "isamax___" = none := by
      simpa using honly ("isamax_", "__") (by decide) (by decide)
    have g3 : (lookup "isamax_64_").isSome = true := by simpa using hres
    simp [autodetect_symbol_suffix, stem_scan, suffix_scan, suffixes,
      symbol_names, e0, e1, e2, g3]
  · have e0 : lookup "isamax_" = none := by
      simpa using honly ("isamax_", "") (by decide) (by decide)
    have e1 : lookup "isamax__" = none := by
      simpa using honly ("isamax_", "_") (by decide) (by decide)
    have e2 : lookup "isamax___" = none := by
      simpa using honly ("isamax_", "__") (by decide) (by decide)
    have e3 : lookup "isamax_64_" = none := by
      simpa using honly ("isamax_", "64_") (by decide) (by decide)
    have g4 : (lookup "isamax__64__").isSome = true := by simpa using hres
    simp [autodetect_symbol_suffix, stem_scan, suffix_scan, suffixes,
      symbol_names, e0, e1, e2, e3, g4]
  · have e0 : lookup "isamax_" = none := by
      simpa using honly ("isamax_", "") (by decide) (by decide)
    have e1 : lookup "isamax__" = none := by
      simpa using honly ("isamax_", "_") (by decide) (by decide)
    have e2 : lookup "isamax___" = none := by
      simpa using honly ("isamax_", "__") (by decide) (by decide)
    have e3 : lookup "isamax_64_" = none := by
      simpa using honly ("isamax_", "64_") (by decide) (by decide)
    have e4 : lookup "isamax__64__" = none := by
      simpa using honly ("isamax_", "_64__") (by decide) (by decide)
    have g5 : (lookup "isamax___64___").isSome = true := by
      simpa using hres
    simp [autodetect_symbol_suffix, stem_scan, suffix_scan, suffixes,
      symbol_names, e0, e1, e2, e3, e4, g5]

/-- Closed witness for `suffix_roundtrip`: a resolver exporting exactly
`isamax_64_` makes detection return "64_". -/
theorem suffix_roundtrip_witness :
    autodetect_symbol_suffix
      (fun name => if name = "isamax_64_" then some 1 else none)
      = some "64_" :=
  suffix_roundtrip "64_" (by decide)
    (fun name => if name = "isamax_64_" then some 1 else none)
    (by decide) (by decide)

/-- C8: for every build-time registry, the generated name list and the
two address-slot lists are parallel: they have equal length (registry
length plus the sentinel), position i of each holds the registry's i-th
name respectively its 32-bit and its 64-bit address slot, in registry
order, and each list ends with a NULL sentinel at position
`reg.length`. -/
theorem exported_tables_parallel (reg : List String) :
    (exported_func_names reg).length = reg.length + 1 ∧
    (exported_func32_addrs reg).length = (exported_func_names reg).length ∧
    (exported_func64_addrs reg).length = (exported_func_names reg).length ∧
    (∀ i, ∀ h : i < reg.length,
      (exported_func_names reg)[i]? = some (some reg[i]) ∧
      (exported_func32_addrs reg)[i]?
          = some (some (AddrSlot.addr32 reg[i])) ∧
      (exported_func64_addrs reg)[i]?
          = some (some (AddrSlot.addr64 reg[i]))) ∧
    (exported_func_names reg)[reg.length]? = some none ∧
    (exported_func32_addrs reg)[reg.length]? = some none ∧
    (exported_func64_addrs reg)[reg.length]? = some none := by
  refine ⟨by simp [exported_func_names], by
    simp [exported_func_names, exported_func32_addrs], by
    simp [exported_func_names, exported_func64_addrs], ?_, by
    simp [exported_func_names, List.getElem?_append_right,
      List.length_map], by
    simp [exported_func32_addrs, List.getElem?_append_right,
      List.length_map], by
    simp [exported_func64_addrs, List.getElem?_append_right,
      List.length_map]⟩
  intro i h
  refine ⟨?_, ?_, ?_⟩ <;>
    simp [exported_func_names, exported_func32_addrs,
      exported_func64_addrs, List.getElem?_append_left, List.length_map,
      h, List.getElem?_eq_getElem]

/-- Closed witness for `exported_tables_parallel` on a two-name
registry. -/
theorem exported_tables_parallel_witness :
    (exported_func_names ["sgemm", "dgemm"])[0]? = some (some "sgemm") ∧
    (exported_func32_addrs ["sgemm", "dgemm"])[1]?
        = some (some (AddrSlot.addr32 "dgemm")) ∧
    (exported_func64_addrs ["sgemm", "dgemm"])[1]?
        = some (some (AddrSlot.addr64 "dgemm")) ∧
    (exported_func_names ["sgemm", "dgemm"])[2]? = some none :=
  ⟨((exported_tables_parallel ["sgemm", "dgemm"]).2.2.2.1 0
      (by decide)).1,
   ((exported_tables_parallel ["sgemm", "dgemm"]).2.2.2.1 1
      (by decide)).2.1,
   ((exported_tables_parallel ["sgemm", "dgemm"]).2.2.2.1 1
      (by decide)).2.2,
   (exported_tables_parallel ["sgemm", "dgemm"]).2.2.2.2.1⟩
